import Mathlib

/-!
Verification of the client-side job-state synchronization engine of the
video-essay-maker dashboard (frontend React application).

The definitions below are a shallow embedding of `src/frontend/src/App.jsx`
and its collaborators (`JobDetails.jsx`, `api.js`): pure decision predicates
become Lean functions, the React component state becomes an explicit
`AppState` record, the async action handlers become state transformers that
also report the network requests they issue, and the reactive effects
(selection fetch, artifact lifecycle) become small event-step machines.
-/

/-- Status vocabulary used by the pipeline for the overall job status and the
three per-stage statuses (`script_status`, `audio_status`, `video_status`). -/
inductive Status where
  | queued
  | processing
  | rerendering
  | completed
  | failed
  | not_requested
deriving DecidableEq, Repr

/-- A job record as consumed by `App.jsx`: the fields the frontend reads from
the API's job payloads. -/
structure Job where
  id : Nat
  topic : String := ""
  style : String := ""
  length : Nat := 0
  status : Status := Status.queued
  script_status : Status := Status.not_requested
  audio_status : Status := Status.not_requested
  video_status : Status := Status.not_requested
  script : Option String := none
  transcript : Option String := none
  image_prompts : Option String := none
  video_url : Option String := none
deriving DecidableEq, Repr

/-- Membership in `const processingStates = new Set(["processing", "rerendering"])`
(App.jsx line 16); set membership of a status. -/
def processingStates (s : Status) : Bool :=
  s == Status.processing || s == Status.rerendering

/-- Membership in `const pendingStates = new Set(["queued"])` (App.jsx line 17);
set membership of a status. -/
def pendingStates (s : Status) : Bool :=
  s == Status.queued

/-- The `shouldPoll` decision of the polling effect (App.jsx lines 55-62):
poll while the overall status is in `processingStates`, or any stage status
is in `processingStates` or in `pendingStates`. -/
def shouldPoll (job : Job) : Bool :=
  processingStates job.status ||
  processingStates job.script_status ||
  processingStates job.audio_status ||
  processingStates job.video_status ||
  pendingStates job.script_status ||
  pendingStates job.audio_status ||
  pendingStates job.video_status

/-- The `videoDisabled` flag (JobDetails.jsx): the video button is disabled when the
feature flag is off, or `audio_status !== "completed"`, or
`video_status === "processing"`, or a video request is already in flight. -/
def videoDisabled (videoFeatureEnabled : Bool) (job : Job) (videoLoading : Bool) : Bool :=
  !videoFeatureEnabled ||
  job.audio_status != Status.completed ||
  job.video_status == Status.processing ||
  videoLoading

/-- The `audioDisabled` flag (JobDetails.jsx): the audio button is disabled when the
script stage is not completed, audio is processing, or a request is in
flight. -/
def audioDisabled (job : Job) (audioLoading : Bool) : Bool :=
  job.script_status != Status.completed ||
  job.audio_status == Status.processing ||
  audioLoading

/-- A network request issued by the frontend through `api.js`. -/
inductive Request where
  | postCreate
  | getList
  | getJob (id : Nat)
  | patchJob (id : Nat)
  | postRerender (id : Nat)
  | postAudio (id : Nat)
  | postVideo (id : Nat)
deriving DecidableEq, Repr

/-- The server's responses during one episode of client activity: `detail id`
is what `GET /jobs/{id}` returns (`none` = network failure), `list` is what
`GET /jobs?limit=20` returns, the `Ok` fields say whether the corresponding
mutation endpoints succeed, and `create` is the full job returned by
`POST /jobs`. -/
structure Server where
  detail : Nat → Option Job
  list : Option (List Job)
  patchOk : Nat → Bool
  rerenderOk : Nat → Bool
  audioOk : Nat → Bool
  videoOk : Nat → Bool
  create : Option Job

/-- The React state of `App` (App.jsx lines 20-29). -/
structure AppState where
  jobs : List Job
  selectedJobId : Option Nat
  selectedJob : Option Job
  loading : Bool
  feedback : String
  showModal : Bool
  savingEdit : Bool
  refreshing : Bool
  audioLoading : Bool
  videoLoading : Bool
deriving DecidableEq, Repr

/-- The handler `refreshJobs(resetSelection = true)` (App.jsx lines 79-90): fetch the job
list; on success replace `jobs` and, when `resetSelection` is set and the list
is non-empty, select the first item; on failure set the feedback banner and
leave all other state intact.  Returns the new state and the requests
issued. -/
def refreshJobs (server : Server) (resetSelection : Bool) (st : AppState) :
    AppState × List Request :=
  match server.list with
  | some items =>
    let st1 := { st with jobs := items }
    (match resetSelection, items with
     | true, item :: _ => { st1 with selectedJobId := some item.id }
     | _, _ => st1,
     [Request.getList])
  | none =>
    ({ st with feedback := "Unable to load jobs from the API." }, [Request.getList])

/-- The handler `handleCreateJob(payload)` (App.jsx lines 92-106): POST the creation
payload; on success set the success banner, refresh the list without resetting
the selection, then select the new job and seed its detail state from the
creation response; on failure set the failure banner.  The `loading` flag is
set for the duration and cleared in `finally`. -/
def handleCreateJob (server : Server) (payload : String) (st : AppState) :
    AppState × List Request :=
  let st1 := { st with loading := true }
  match server.create with
  | some job =>
    let st2 := { st1 with feedback := "Job created. Script generation started." }
    let res := refreshJobs server false st2
    ({ res.1 with selectedJobId := some job.id, selectedJob := some job, loading := false },
     Request.postCreate :: res.2)
  | none =>
    ({ st1 with feedback := "Failed to create job. Check API logs.", loading := false },
     [Request.postCreate])

/-- The handler `handleSaveEdits(payload)` (App.jsx lines 108-125): no-op when no job is
selected; otherwise PATCH the edits, POST the rerender trigger, set the
success banner and close the modal, re-fetch the detail and refresh the list;
any thrown failure lands in the single catch block which sets the one failure
banner.  The `savingEdit` flag is set for the duration and cleared in
`finally`. -/
def handleSaveEdits (server : Server) (payload : String) (st : AppState) :
    AppState × List Request :=
  match st.selectedJobId with
  | none => (st, [])
  | some id =>
    let st1 := { st with savingEdit := true }
    if server.patchOk id then
      if server.rerenderOk id then
        let st2 := { st1 with feedback := "Edits saved. Rerender triggered.", showModal := false }
        match server.detail id with
        | some updated =>
          let res := refreshJobs server false { st2 with selectedJob := some updated }
          ({ res.1 with savingEdit := false },
           Request.patchJob id :: Request.postRerender id :: Request.getJob id :: res.2)
        | none =>
          ({ st2 with feedback := "Failed to save edits.", savingEdit := false },
           [Request.patchJob id, Request.postRerender id, Request.getJob id])
      else
        ({ st1 with feedback := "Failed to save edits.", savingEdit := false },
         [Request.patchJob id, Request.postRerender id])
    else
      ({ st1 with feedback := "Failed to save edits.", savingEdit := false },
       [Request.patchJob id])

/-- The handler `handleRefresh()` (App.jsx lines 127-140): no-op when no job is selected;
otherwise re-fetch the selected job's detail, apply it wholesale to
`selectedJob`, and refresh the list without resetting the selection; on fetch
failure set the failure banner and keep the previous state.  The `refreshing`
flag is set for the duration and cleared in `finally`. -/
def handleRefresh (server : Server) (st : AppState) : AppState × List Request :=
  match st.selectedJobId with
  | none => (st, [])
  | some id =>
    let st1 := { st with refreshing := true }
    match server.detail id with
    | some updated =>
      let res := refreshJobs server false { st1 with selectedJob := some updated }
      ({ res.1 with refreshing := false }, Request.getJob id :: res.2)
    | none =>
      ({ st1 with feedback := "Failed to refresh job.", refreshing := false },
       [Request.getJob id])

/-- The handler `handleRequestAudio(voice)` (App.jsx lines 142-157): no-op when no job is
selected; otherwise POST the audio request, re-fetch the detail, refresh the
list, then set the success banner; on failure set the failure banner.  The
`audioLoading` flag is set for the duration and cleared in `finally`. -/
def handleRequestAudio (server : Server) (voice : Option String) (st : AppState) :
    AppState × List Request :=
  match st.selectedJobId with
  | none => (st, [])
  | some id =>
    let st1 := { st with audioLoading := true }
    if server.audioOk id then
      match server.detail id with
      | some updated =>
        let res := refreshJobs server false { st1 with selectedJob := some updated }
        ({ res.1 with feedback := "Audio generation requested.", audioLoading := false },
         Request.postAudio id :: Request.getJob id :: res.2)
      | none =>
        let st2 := { st1 with feedback := "Failed to request audio. Check API logs." }
        ({ st2 with audioLoading := false }, [Request.postAudio id, Request.getJob id])
    else
      let st2 := { st1 with feedback := "Failed to request audio. Check API logs." }
      ({ st2 with audioLoading := false }, [Request.postAudio id])

/-- The handler `handleRequestVideo()` (App.jsx lines 159-174): no-op when no job is
selected; otherwise POST the video request, re-fetch the detail, refresh the
list, then set the success banner; on failure set the failure banner.  The
`videoLoading` flag is set for the duration and cleared in `finally`. -/
def handleRequestVideo (server : Server) (st : AppState) : AppState × List Request :=
  match st.selectedJobId with
  | none => (st, [])
  | some id =>
    let st1 := { st with videoLoading := true }
    if server.videoOk id then
      match server.detail id with
      | some updated =>
        let res := refreshJobs server false { st1 with selectedJob := some updated }
        ({ res.1 with feedback := "Video generation requested.", videoLoading := false },
         Request.postVideo id :: Request.getJob id :: res.2)
      | none =>
        let st2 := { st1 with feedback := "Failed to request video. Check API logs." }
        ({ st2 with videoLoading := false }, [Request.postVideo id, Request.getJob id])
    else
      let st2 := { st1 with feedback := "Failed to request video. Check API logs." }
      ({ st2 with videoLoading := false }, [Request.postVideo id])

/-- The application of a fetched detail snapshot into component state: every
sink of a `fetchJob` result calls `setSelectedJob(data)`, replacing the
selected-job detail wholesale (App.jsx lines 44, 69, 99, 117, 132, 148, 165). -/
def applyDetail (st : AppState) (data : Job) : AppState :=
  { st with selectedJob := some data }

/-- One successful poll tick (App.jsx lines 66-75): fetch the selected job's
detail, apply it via `setSelectedJob`, then request a list refresh without
resetting the selection. -/
def pollTick (server : Server) (st : AppState) (data : Job) : AppState × List Request :=
  refreshJobs server false (applyDetail st data)

/-- The selection-change effect (App.jsx lines 40-49): whenever
`selectedJobId` changes to a non-null id, a detail fetch for that id is
issued; when it is null the effect returns early and issues nothing. -/
def selectionEffectRequests (oldSel newSel : Option Nat) : List Request :=
  if oldSel = newSel then []
  else
    match newSel with
    | none => []
    | some id => [Request.getJob id]

/-- State of the selection-fetch logic (App.jsx lines 20-22 and 40-49):
`pending` lists the job ids whose detail fetches are currently in flight, in
issue order. -/
structure SelState where
  selectedJobId : Option Nat
  selectedJob : Option Job
  pending : List Nat
deriving DecidableEq, Repr

/-- Events of the selection-fetch logic: the user selects a job in the list
(`onSelect` → `setSelectedJobId`, which re-runs the effect at App.jsx lines
40-49 and issues a detail fetch), or an in-flight detail fetch resolves
(`.then(setSelectedJob)` — applied unconditionally, with no tag comparison
against the current selection). -/
inductive SelEv where
  | select (id : Nat)
  | resolveFetch (id : Nat) (data : Job)
deriving DecidableEq, Repr

/-- One step of the selection-fetch logic.  `select id` updates the selection
and, because the effect's dependency `[selectedJobId]` changed, issues a fetch
for `id` (no cleanup function cancels or tags the previous fetch).
`resolveFetch id data` models that fetch's promise resolving: the code runs
`setSelectedJob(data)` regardless of whether `id` is still the current
selection. -/
def selStep (s : SelState) : SelEv → SelState
  | SelEv.select id =>
    if s.selectedJobId = some id then s
    else { s with selectedJobId := some id, pending := s.pending ++ [id] }
  | SelEv.resolveFetch id data =>
    if id ∈ s.pending then
      { s with selectedJob := some data, pending := s.pending.erase id }
    else s

/-- Run the selection-fetch logic over a list of events. -/
def selRun (s : SelState) : List SelEv → SelState
  | [] => s
  | e :: es => selRun (selStep s e) es

/-- Initial state: nothing selected, no fetch in flight (App.jsx lines 21-22). -/
def selInit : SelState :=
  { selectedJobId := none, selectedJob := none, pending := [] }

/-- Events of the audio-artifact effect (JobDetails.jsx lines 285-300).
`change` models a change of the effect dependencies `[job?.id,
job?.audio_status]` — in particular `audio_status` leaving `completed` — which
runs the previous instance's cleanup (`if (objectUrl)
URL.revokeObjectURL(objectUrl)`) and mounts a fresh instance with its own
`objectUrl` variable.  `resolve inst url` models the `fetchArtifact` promise
started by effect instance `inst` resolving with object URL `url`
(`objectUrl = url; setAudioUrl(url)`). -/
inductive AudioEv where
  | change
  | resolve (inst : Nat) (url : Nat)
deriving DecidableEq, Repr

/-- State of the audio-artifact effect: `curr` numbers the effect instance
currently mounted, `held` is that instance's `objectUrl` closure variable
(`some url` once its fetch has resolved). -/
structure AudioState where
  curr : Nat
  held : Option Nat
deriving DecidableEq, Repr

/-- Initially instance 0 is mounted and holds no object URL. -/
def audioInit : AudioState := { curr := 0, held := none }

/-- One step of the audio-artifact effect.  On `change` the old instance is
cleaned up and a fresh instance (with `objectUrl` unset) is mounted.  On
`resolve inst url`, the assignment `objectUrl = url` lands in instance
`inst`'s closure: it becomes the held handle only if that instance is still
the mounted one; a resolution reaching an already-cleaned-up instance is
invisible to every future cleanup. -/
def audioStep (s : AudioState) : AudioEv → AudioState
  | AudioEv.change => { curr := s.curr + 1, held := none }
  | AudioEv.resolve i u => if i = s.curr then { s with held := some u } else s

/-- Run the audio-artifact effect over a list of events. -/
def audioRun (s : AudioState) : List AudioEv → AudioState
  | [] => s
  | e :: es => audioRun (audioStep s e) es

/-- Number of times object URL `u` is revoked along a trace: the cleanup at a
`change` event calls `URL.revokeObjectURL(objectUrl)` exactly when the closing
instance's `objectUrl` is set. -/
def revCount (u : Nat) (s : AudioState) : List AudioEv → Nat
  | [] => 0
  | AudioEv.change :: es =>
    (if s.held = some u then 1 else 0) + revCount u (audioStep s AudioEv.change) es
  | AudioEv.resolve i v :: es => revCount u (audioStep s (AudioEv.resolve i v)) es

/-- Number of fetch resolutions carrying object URL `u` in a trace.  In the
browser each `URL.createObjectURL` call returns a fresh URL, so a real trace
resolves any given `u` at most once. -/
def resolveCount (u : Nat) : List AudioEv → Nat
  | [] => 0
  | AudioEv.change :: es => resolveCount u es
  | AudioEv.resolve _ v :: es => (if v = u then 1 else 0) + resolveCount u es

/-- A server all of whose endpoints fail. -/
def serverFail : Server :=
  { detail := fun _ => none
    list := none
    patchOk := fun _ => false
    rerenderOk := fun _ => false
    audioOk := fun _ => false
    videoOk := fun _ => false
    create := none }

/-- The component's initial state (App.jsx lines 20-29). -/
def stEmpty : AppState :=
  { jobs := []
    selectedJobId := none
    selectedJob := none
    loading := false
    feedback := ""
    showModal := false
    savingEdit := false
    refreshing := false
    audioLoading := false
    videoLoading := false }

/-- A job summary as the list currently shows it: job 1 still processing. -/
def jobOld : Job :=
  { id := 1, status := Status.processing, script_status := Status.processing }

/-- A fresh detail snapshot of the same job 1, now completed. -/
def jobNew : Job :=
  { id := 1, status := Status.completed, script_status := Status.completed
    audio_status := Status.completed, video_status := Status.completed }

/-- Job 1's completed detail snapshot (used as a stale fetch result). -/
def jobA : Job :=
  { id := 1, status := Status.completed, script_status := Status.completed }

/-- Job 2's detail snapshot. -/
def jobB : Job :=
  { id := 2, status := Status.processing, script_status := Status.processing }

/-- A job with id 7 as returned in a list response. -/
def jobSeven : Job := { id := 7, status := Status.queued }

/-- The creation response for a new job with id 9. -/
def jobNine : Job := { id := 9, status := Status.queued }

/-- A server whose list endpoint returns the single job 7 and whose other
endpoints fail. -/
def serverListSeven : Server := { serverFail with list := some [jobSeven] }

/-- A server whose creation endpoint returns job 9 and whose list endpoint
returns the refreshed list containing it. -/
def serverCreateNine : Server :=
  { serverFail with create := some jobNine, list := some [jobNine] }

/-- Like `serverCreateNine` but the follow-up list fetch fails. -/
def serverCreateNineNoList : Server := { serverFail with create := some jobNine }

/-- A server for which the edit PATCH succeeds but the rerender POST fails,
while detail and list fetches succeed. -/
def serverPartial : Server :=
  { serverFail with
    detail := fun _ => some jobOld
    list := some [jobOld]
    patchOk := fun _ => true
    rerenderOk := fun _ => false }

/-- Like `serverPartial` but the PATCH itself fails (the all-failure run). -/
def serverAllFail : Server := { serverPartial with patchOk := fun _ => false }

/-- Like `serverPartial` but both phases succeed (the all-success run). -/
def serverAllOk : Server := { serverPartial with rerenderOk := fun _ => true }

/-- A state with job 1 listed and selected. -/
def stSelOne : AppState :=
  { stEmpty with jobs := [jobOld], selectedJobId := some 1, selectedJob := some jobOld }

/-- C1: for every job snapshot, `shouldPoll` is true iff the overall status is
`processing` or `rerendering`, or at least one of the three stage statuses is
`processing`, `rerendering`, or `queued`.  In particular an overall status of
`queued` alone (with no poll-worthy stage) does not trigger polling, since the
overall status is only tested against `processingStates`. -/
theorem shouldPoll_iff_claim (job : Job) :
    shouldPoll job = true ↔
      (job.status = Status.processing ∨ job.status = Status.rerendering ∨
       job.script_status = Status.processing ∨ job.script_status = Status.rerendering ∨
         job.script_status = Status.queued ∨
       job.audio_status = Status.processing ∨ job.audio_status = Status.rerendering ∨
         job.audio_status = Status.queued ∨
       job.video_status = Status.processing ∨ job.video_status = Status.rerendering ∨
         job.video_status = Status.queued) := by
  simp only [shouldPoll, processingStates, pendingStates, Bool.or_eq_true, beq_iff_eq]
  tauto

/-- C9: the video button is enabled (`videoDisabled = false`) only if the video
feature is enabled, `audio_status = completed`, and `video_status ≠ processing`;
and whenever `audio_status ≠ completed` the button is disabled. -/
theorem videoEnabled_only_if (flag loading : Bool) (job : Job) :
    (videoDisabled flag job loading = false →
       flag = true ∧ job.audio_status = Status.completed ∧
         job.video_status ≠ Status.processing) ∧
    (job.audio_status ≠ Status.completed → videoDisabled flag job loading = true) := by
  constructor
  · intro h
    simp only [videoDisabled, Bool.or_eq_false_iff, Bool.not_eq_false', bne_eq_false_iff_eq,
      beq_eq_false_iff_ne, ne_eq] at h
    exact ⟨h.1.1.1, h.1.1.2, h.1.2⟩
  · intro h
    simp only [videoDisabled, Bool.or_eq_true, bne_iff_ne, ne_eq]
    tauto

/-- Witness for C9 at concrete inputs: with the feature on, audio completed and
video queued the button is enabled and the conclusion holds; with audio still
processing the button is disabled. -/
theorem videoEnabled_only_if_witness :
    (true = true ∧
       (Job.mk 1 "" "" 0 Status.processing Status.completed Status.completed Status.queued
          none none none none).audio_status = Status.completed ∧
       (Job.mk 1 "" "" 0 Status.processing Status.completed Status.completed Status.queued
          none none none none).video_status ≠ Status.processing) ∧
    videoDisabled true
      (Job.mk 2 "" "" 0 Status.processing Status.completed Status.processing Status.not_requested
        none none none none) false = true :=
  ⟨(videoEnabled_only_if true false
      (Job.mk 1 "" "" 0 Status.processing Status.completed Status.completed Status.queued
        none none none none)).1 (by decide),
   (videoEnabled_only_if true false
      (Job.mk 2 "" "" 0 Status.processing Status.completed Status.processing Status.not_requested
        none none none none)).2 (by decide)⟩

/-- Characterization of `refreshJobs` with `resetSelection = false` (the form
used by every call site except the initial load): the selection is never
touched. -/
theorem refreshJobs_false_eq (server : Server) (st : AppState) :
    refreshJobs server false st =
      (match server.list with
       | some items => { st with jobs := items }
       | none => { st with feedback := "Unable to load jobs from the API." },
       [Request.getList]) := by
  unfold refreshJobs
  rcases server.list with _ | items
  · rfl
  · rcases items with _ | ⟨item, rest⟩ <;> rfl

/-- C10: while the selection is empty, save-edits-and-rerender, refresh,
request-audio and request-video are complete no-ops: the state is returned
unchanged and no network request is issued. -/
theorem handlers_noop_without_selection (server : Server) (st : AppState)
    (payload : String) (voice : Option String) (h : st.selectedJobId = none) :
    handleSaveEdits server payload st = (st, []) ∧
    handleRefresh server st = (st, []) ∧
    handleRequestAudio server voice st = (st, []) ∧
    handleRequestVideo server st = (st, []) := by
  refine ⟨?_, ?_, ?_, ?_⟩
  · unfold handleSaveEdits; rw [h]
  · unfold handleRefresh; rw [h]
  · unfold handleRequestAudio; rw [h]
  · unfold handleRequestVideo; rw [h]

/-- Witness for C10 at the initial state against an all-failing server. -/
theorem handlers_noop_without_selection_witness :
    handleSaveEdits serverFail "" stEmpty = (stEmpty, []) ∧
    handleRefresh serverFail stEmpty = (stEmpty, []) ∧
    handleRequestAudio serverFail none stEmpty = (stEmpty, []) ∧
    handleRequestVideo serverFail stEmpty = (stEmpty, []) :=
  handlers_noop_without_selection serverFail stEmpty "" none rfl

/-- C7: against a fixed server state, running the manual refresh twice in a
row leaves the same applied `selectedJob` snapshot as running it once (the
second application changes nothing). -/
theorem handleRefresh_idempotent_selectedJob (server : Server) (st : AppState) :
    (handleRefresh server (handleRefresh server st).1).1.selectedJob =
      (handleRefresh server st).1.selectedJob := by
  rcases h : st.selectedJobId with _ | id
  · simp [handleRefresh, h]
  · rcases hd : server.detail id with _ | updated
    · simp [handleRefresh, h, hd]
    · rcases hl : server.list with _ | items <;>
        simp [handleRefresh, refreshJobs_false_eq, h, hd, hl]

/-- C5 counterexample: an invocation of the list refresh that actually occurs
in the program (`refreshJobs(false)`, as called by the poll tick, create,
save-edits, refresh and the request handlers) with an empty selection and a
non-empty result list leaves the selection empty — the first item does not
become the selection, contrary to the claim. -/
theorem refreshJobs_empty_selection_cex :
    stEmpty.selectedJobId = none ∧
    serverListSeven.list = some [jobSeven] ∧
    (refreshJobs serverListSeven false stEmpty).1.jobs = [jobSeven] ∧
    (refreshJobs serverListSeven false stEmpty).1.selectedJobId = none :=
  ⟨rfl, rfl, rfl, rfl⟩

/-- C5 amended: whether the selection is altered is decided by the caller's
`resetSelection` flag, not by whether a selection exists.  With the flag false
the selection is never altered; with the flag true and a non-empty fetched
list, the first item becomes the selection regardless of the previous
selection.  (The only `resetSelection = true` call site is the initial load,
where the selection is still empty, which yields auto-select-on-first-load.) -/
theorem refreshJobs_selection_flag (server : Server) (st : AppState) :
    ((refreshJobs server false st).1.selectedJobId = st.selectedJobId) ∧
    (∀ item rest, server.list = some (item :: rest) →
      (refreshJobs server true st).1.selectedJobId = some item.id) := by
  constructor
  · rw [refreshJobs_false_eq]
    rcases server.list with _ | items <;> rfl
  · intro item rest hl
    simp [refreshJobs, hl]

/-- Witness for C5's amended claim: with the flag false an existing selection
survives a refresh; with the flag true the first listed job becomes
selected. -/
theorem refreshJobs_selection_flag_witness :
    ((refreshJobs serverListSeven false stSelOne).1.selectedJobId = stSelOne.selectedJobId) ∧
    (refreshJobs serverListSeven true stEmpty).1.selectedJobId = some jobSeven.id :=
  ⟨(refreshJobs_selection_flag serverListSeven stSelOne).1,
   (refreshJobs_selection_flag serverListSeven stEmpty).2 jobSeven [] rfl⟩

/-- C6 counterexample: applying a fresh detail snapshot (`setSelectedJob`)
does not update the corresponding job-list entry: after `applyDetail` the
detail view reports `completed` while the list entry for the same job id
still reports `processing`, so the claimed invariant fails immediately after
an `applyDetail`. -/
theorem applyDetail_list_disagrees_cex :
    (applyDetail stSelOne jobNew).selectedJob = some jobNew ∧
    (applyDetail stSelOne jobNew).jobs = [jobOld] ∧
    jobNew.id = jobOld.id ∧
    jobNew.status ≠ jobOld.status :=
  ⟨rfl, rfl, rfl, by decide⟩

/-- C6 amended: applying a fetched detail snapshot replaces `selectedJob`
wholesale and leaves the job list untouched; the poll tick and manual refresh
separately issue an asynchronous list re-fetch (`refreshJobs(false)`), so the
list catches up with the server only once that fetch resolves — agreement is
eventual, not guaranteed at each `applyDetail`. -/
theorem applyDetail_frame_and_eventual_list (server : Server) (st : AppState) (data : Job) :
    ((applyDetail st data).selectedJob = some data) ∧
    ((applyDetail st data).jobs = st.jobs) ∧
    (∀ items, server.list = some items → (pollTick server st data).1.jobs = items) := by
  refine ⟨rfl, rfl, ?_⟩
  intro items hl
  simp [pollTick, refreshJobs_false_eq, hl]

/-- Witness for C6's amended claim at concrete inputs. -/
theorem applyDetail_frame_and_eventual_list_witness :
    ((applyDetail stSelOne jobNew).selectedJob = some jobNew) ∧
    ((applyDetail stSelOne jobNew).jobs = stSelOne.jobs) ∧
    ((pollTick serverListSeven stSelOne jobNew).1.jobs = [jobSeven]) :=
  ⟨(applyDetail_frame_and_eventual_list serverListSeven stSelOne jobNew).1,
   (applyDetail_frame_and_eventual_list serverListSeven stSelOne jobNew).2.1,
   (applyDetail_frame_and_eventual_list serverListSeven stSelOne jobNew).2.2 [jobSeven] rfl⟩

/-- C3 counterexample: when the PATCH succeeds and the rerender POST fails,
the resulting banner is byte-for-byte the all-failure banner ("Failed to save
edits."), not a distinct message; only the all-success run differs. -/
theorem saveEdits_partial_message_cex :
    (handleSaveEdits serverPartial "" stSelOne).1.feedback =
      (handleSaveEdits serverAllFail "" stSelOne).1.feedback ∧
    (handleSaveEdits serverAllOk "" stSelOne).1.feedback = "Edits saved. Rerender triggered." ∧
    (handleSaveEdits serverPartial "" stSelOne).1.feedback = "Failed to save edits." :=
  ⟨rfl, rfl, rfl⟩

/-- C3 amended: in every execution where the edit PATCH succeeds and the
rerender POST fails, the user message is "Failed to save edits." — different
from the all-success message but identical to the all-failure message, so the
partial-success case is not surfaced distinctly. -/
theorem saveEdits_partial_equals_failure_message (server server2 : Server)
    (st st2 : AppState) (id id2 : Nat) (p p2 : String)
    (h1 : st.selectedJobId = some id) (h2 : server.patchOk id = true)
    (h3 : server.rerenderOk id = false)
    (h4 : st2.selectedJobId = some id2) (h5 : server2.patchOk id2 = false) :
    (handleSaveEdits server p st).1.feedback = "Failed to save edits." ∧
    (handleSaveEdits server2 p2 st2).1.feedback = "Failed to save edits." ∧
    (handleSaveEdits server p st).1.feedback ≠ "Edits saved. Rerender triggered." := by
  have e1 : (handleSaveEdits server p st).1.feedback = "Failed to save edits." := by
    simp [handleSaveEdits, h1, h2, h3]
  have e2 : (handleSaveEdits server2 p2 st2).1.feedback = "Failed to save edits." := by
    simp [handleSaveEdits, h4, h5]
  refine ⟨e1, e2, ?_⟩
  rw [e1]
  decide

/-- Witness for C3's amended claim: a concrete partial-success run and a
concrete all-failure run produce the same failure banner. -/
theorem saveEdits_partial_equals_failure_message_witness :
    (handleSaveEdits serverPartial "x" stSelOne).1.feedback = "Failed to save edits." ∧
    (handleSaveEdits serverAllFail "y" stSelOne).1.feedback = "Failed to save edits." ∧
    (handleSaveEdits serverPartial "x" stSelOne).1.feedback ≠ "Edits saved. Rerender triggered." :=
  saveEdits_partial_equals_failure_message serverPartial serverAllFail stSelOne stSelOne
    1 1 "x" "y" rfl rfl rfl rfl rfl

/-- C4 counterexample: after a successful create, the new job's detail is
seeded from the creation response, but because `setSelectedJobId` changed the
selection, the selection effect (App.jsx lines 40-49) still issues a detail
fetch for the new job — the redundant fetch the claim says is avoided. -/
theorem createJob_redundant_fetch_cex :
    (handleCreateJob serverCreateNine "" stEmpty).1.selectedJob = some jobNine ∧
    (handleCreateJob serverCreateNine "" stEmpty).1.selectedJobId = some 9 ∧
    selectionEffectRequests stEmpty.selectedJobId
        (handleCreateJob serverCreateNine "" stEmpty).1.selectedJobId =
      [Request.getJob 9] :=
  ⟨rfl, rfl, by decide⟩

/-- C4 amended: on a successful create the list is refreshed without the
refresh itself resetting the selection, the new job becomes the selection and
its detail state is seeded directly from the creation response — but the
selection change re-runs the selection effect, which issues a (redundant)
detail fetch for the new job. -/
theorem handleCreateJob_success (server : Server) (st : AppState) (payload : String)
    (job : Job) (hc : server.create = some job) :
    ((handleCreateJob server payload st).1.selectedJobId = some job.id) ∧
    ((handleCreateJob server payload st).1.selectedJob = some job) ∧
    (∀ items, server.list = some items → (handleCreateJob server payload st).1.jobs = items) ∧
    (server.list = none → (handleCreateJob server payload st).1.jobs = st.jobs) ∧
    (st.selectedJobId ≠ some job.id →
      selectionEffectRequests st.selectedJobId
          (handleCreateJob server payload st).1.selectedJobId =
        [Request.getJob job.id]) := by
  have hsel : (handleCreateJob server payload st).1.selectedJobId = some job.id := by
    rcases hl : server.list with _ | items <;>
      simp [handleCreateJob, hc, refreshJobs_false_eq, hl]
  refine ⟨hsel, ?_, ?_, ?_, ?_⟩
  · rcases hl : server.list with _ | items <;>
      simp [handleCreateJob, hc, refreshJobs_false_eq, hl]
  · intro items hl
    simp [handleCreateJob, hc, refreshJobs_false_eq, hl]
  · intro hl
    simp [handleCreateJob, hc, refreshJobs_false_eq, hl]
  · intro hne
    rw [hsel]
    simp [selectionEffectRequests, hne]

/-- Witness for C4's amended claim: creating job 9 from the initial state,
with and without a working list endpoint. -/
theorem handleCreateJob_success_witness :
    ((handleCreateJob serverCreateNine "" stEmpty).1.selectedJobId = some jobNine.id) ∧
    ((handleCreateJob serverCreateNine "" stEmpty).1.selectedJob = some jobNine) ∧
    ((handleCreateJob serverCreateNine "" stEmpty).1.jobs = [jobNine]) ∧
    ((handleCreateJob serverCreateNineNoList "" stEmpty).1.jobs = stEmpty.jobs) ∧
    (selectionEffectRequests stEmpty.selectedJobId
        (handleCreateJob serverCreateNine "" stEmpty).1.selectedJobId =
      [Request.getJob jobNine.id]) :=
  ⟨(handleCreateJob_success serverCreateNine stEmpty "" jobNine rfl).1,
   (handleCreateJob_success serverCreateNine stEmpty "" jobNine rfl).2.1,
   (handleCreateJob_success serverCreateNine stEmpty "" jobNine rfl).2.2.1 [jobNine] rfl,
   (handleCreateJob_success serverCreateNineNoList stEmpty "" jobNine rfl).2.2.2.1 rfl,
   (handleCreateJob_success serverCreateNine stEmpty "" jobNine rfl).2.2.2.2 (by decide)⟩

/-- C2: the selection effect attaches no tag or cleanup to an in-flight
detail fetch, so a fetch issued for job 1 that resolves after the user has
selected job 2 (and after job 2's own fetch already resolved) overwrites
`selectedJob` with job 1's stale snapshot: afterwards `selectedJobId` is 2
while `selectedJob` holds job 1's data. -/
theorem stale_fetch_overwrites_new_selection :
    (selRun selInit [SelEv.select 1, SelEv.select 2, SelEv.resolveFetch 2 jobB,
        SelEv.resolveFetch 1 jobA]).selectedJobId = some 2 ∧
    (selRun selInit [SelEv.select 1, SelEv.select 2, SelEv.resolveFetch 2 jobB,
        SelEv.resolveFetch 1 jobA]).selectedJob = some jobA ∧
    jobA.id ≠ 2 := by
  refine ⟨by decide, by decide, by decide⟩

/-- Fetch-resolution counting distributes over trace concatenation. -/
theorem resolveCount_append (u : Nat) (t₁ t₂ : List AudioEv) :
    resolveCount u (t₁ ++ t₂) = resolveCount u t₁ + resolveCount u t₂ := by
  induction t₁ with
  | nil => simp [resolveCount]
  | cons e es ih => cases e <;> simp [resolveCount, ih, Nat.add_assoc]

/-- Revocation counting distributes over trace concatenation. -/
theorem revCount_append (u : Nat) (s : AudioState) (t₁ t₂ : List AudioEv) :
    revCount u s (t₁ ++ t₂) = revCount u s t₁ + revCount u (audioRun s t₁) t₂ := by
  induction t₁ generalizing s with
  | nil => simp [revCount, audioRun]
  | cons e es ih =>
    cases e with
    | change => simp [revCount, audioRun, ih, Nat.add_assoc]
    | resolve i v => simp [revCount, audioRun, ih]

/-- If the mounted effect instance does not hold object URL `u` and no fetch
in the trace resolves with `u`, the instance mounted at the end does not hold
`u` either. -/
theorem audioRun_not_held (u : Nat) (s : AudioState) (t : List AudioEv)
    (hheld : s.held ≠ some u) (hres : resolveCount u t = 0) :
    (audioRun s t).held ≠ some u := by
  induction t generalizing s with
  | nil => exact hheld
  | cons e es ih =>
    cases e with
    | change =>
      exact ih (audioStep s AudioEv.change) (by simp [audioStep])
        (by simpa [resolveCount] using hres)
    | resolve i v =>
      have hres' : v ≠ u ∧ resolveCount u es = 0 := by
        by_cases hv : v = u <;> simp [resolveCount, hv] at hres <;> exact ⟨hv, hres⟩
      refine ih (audioStep s (AudioEv.resolve i v)) ?_ hres'.2
      unfold audioStep
      by_cases hic : i = s.curr
      · simp [hic]
        exact hres'.1
      · simpa [hic] using hheld

/-- If the mounted instance does not hold `u` and no fetch in the trace
resolves with `u`, then `u` is never revoked along the trace. -/
theorem revCount_zero_of_not_held (u : Nat) (s : AudioState) (t : List AudioEv)
    (hheld : s.held ≠ some u) (hres : resolveCount u t = 0) :
    revCount u s t = 0 := by
  induction t generalizing s with
  | nil => rfl
  | cons e es ih =>
    cases e with
    | change =>
      have h0 : (if s.held = some u then 1 else 0) = 0 := by simp [hheld]
      simp only [revCount, h0, Nat.zero_add]
      exact ih (audioStep s AudioEv.change) (by simp [audioStep])
        (by simpa [resolveCount] using hres)
    | resolve i v =>
      have hres' : v ≠ u ∧ resolveCount u es = 0 := by
        by_cases hv : v = u <;> simp [resolveCount, hv] at hres <;> exact ⟨hv, hres⟩
      simp only [revCount]
      refine ih (audioStep s (AudioEv.resolve i v)) ?_ hres'.2
      unfold audioStep
      by_cases hic : i = s.curr
      · simp [hic]
        exact hres'.1
      · simpa [hic] using hheld

/-- If the mounted instance holds `u`, no further fetch resolves with `u`,
and at the end of the trace the mounted instance still holds `u`, then `u`
was not revoked inside the trace (revocation would have cleared it for
good). -/
theorem revCount_zero_of_held_stays (u : Nat) (s : AudioState) (t : List AudioEv)
    (hheld : s.held = some u) (hres : resolveCount u t = 0)
    (hfin : (audioRun s t).held = some u) :
    revCount u s t = 0 := by
  induction t generalizing s with
  | nil => rfl
  | cons e es ih =>
    cases e with
    | change =>
      exact absurd hfin
        (audioRun_not_held u (audioStep s AudioEv.change) es (by simp [audioStep])
          (by simpa [resolveCount] using hres))
    | resolve i v =>
      have hres' : v ≠ u ∧ resolveCount u es = 0 := by
        by_cases hv : v = u <;> simp [resolveCount, hv] at hres <;> exact ⟨hv, hres⟩
      simp only [revCount]
      by_cases hic : i = s.curr
      · exact absurd hfin
          (audioRun_not_held u (audioStep s (AudioEv.resolve i v)) es
            (by simp [audioStep, hic]; exact hres'.1) hres'.2)
      · have hstep : audioStep s (AudioEv.resolve i v) = s := by simp [audioStep, hic]
        rw [hstep]
        refine ih s hheld hres'.2 ?_
        have hfin' : (audioRun (audioStep s (AudioEv.resolve i v)) es).held = some u := hfin
        rwa [hstep] at hfin'

/-- Before the handle-holding instance is cleaned up, `u` is never revoked:
if the starting instance does not hold `u`, exactly one fetch in the trace
resolves with `u`, and at the end of the trace the mounted instance holds
`u`, then no revocation of `u` happened inside the trace. -/
theorem revCount_zero_before_transition (u : Nat) (s : AudioState) (t : List AudioEv)
    (hheld : s.held ≠ some u) (hres : resolveCount u t = 1)
    (hfin : (audioRun s t).held = some u) :
    revCount u s t = 0 := by
  induction t generalizing s with
  | nil => rfl
  | cons e es ih =>
    cases e with
    | change =>
      have h0 : (if s.held = some u then 1 else 0) = 0 := by simp [hheld]
      simp only [revCount, h0, Nat.zero_add]
      exact ih (audioStep s AudioEv.change) (by simp [audioStep])
        (by simpa [resolveCount] using hres) hfin
    | resolve i v =>
      simp only [revCount]
      by_cases hv : v = u
      · have hres' : resolveCount u es = 0 := by
          simp [resolveCount, hv] at hres
          exact hres
        by_cases hic : i = s.curr
        · refine revCount_zero_of_held_stays u (audioStep s (AudioEv.resolve i v)) es
            ?_ hres' hfin
          simp [audioStep, hic, hv]
        · have hstep : audioStep s (AudioEv.resolve i v) = s := by simp [audioStep, hic]
          rw [hstep]
          refine revCount_zero_of_not_held u s es hheld hres'
      · have hres' : resolveCount u es = 1 := by
          simp [resolveCount, hv] at hres
          exact hres
        refine ih (audioStep s (AudioEv.resolve i v)) ?_ hres' hfin
        unfold audioStep
        by_cases hic : i = s.curr
        · simp [hic]
          exact hv
        · simpa [hic] using hheld

/-- C8: if at some point of a trace the mounted audio effect instance holds
object URL `u` (its `fetchArtifact` promise has resolved) and the effect
dependencies then change — in particular `audio_status` transitioning away
from `completed` — then `u` is revoked exactly once over the whole trace:
never leaked and never revoked twice.  The hypothesis `huniq` reflects that
`URL.createObjectURL` returns a fresh URL for every call, so a given URL is
resolved by at most one fetch. -/
theorem audio_handle_revoked_exactly_once (t₁ t₂ : List AudioEv) (u : Nat)
    (hheld : (audioRun audioInit t₁).held = some u)
    (huniq : resolveCount u (t₁ ++ AudioEv.change :: t₂) ≤ 1) :
    revCount u audioInit (t₁ ++ AudioEv.change :: t₂) = 1 := by
  have h1 : resolveCount u t₁ ≠ 0 := fun h0 =>
    audioRun_not_held u audioInit t₁ (by simp [audioInit]) h0 hheld
  have hsplit : resolveCount u t₁ + resolveCount u (AudioEv.change :: t₂) ≤ 1 := by
    simpa [resolveCount_append] using huniq
  have ht1 : resolveCount u t₁ = 1 := by omega
  have ht2 : resolveCount u t₂ = 0 := by
    have hc : resolveCount u (AudioEv.change :: t₂) = 0 := by omega
    simpa [resolveCount] using hc
  rw [revCount_append]
  have hpre : revCount u audioInit t₁ = 0 :=
    revCount_zero_before_transition u audioInit t₁ (by simp [audioInit]) ht1 hheld
  have hpost : revCount u (audioRun audioInit t₁) (AudioEv.change :: t₂) = 1 := by
    have hz : revCount u (audioStep (audioRun audioInit t₁) AudioEv.change) t₂ = 0 :=
      revCount_zero_of_not_held u _ t₂ (by simp [audioStep]) ht2
    simp [revCount, hheld, hz]
  omega

/-- Witness for C8: instance 0's fetch resolves with URL 7, then the effect
dependencies change; URL 7 is revoked exactly once. -/
theorem audio_handle_revoked_exactly_once_witness :
    revCount 7 audioInit ([AudioEv.resolve 0 7] ++ AudioEv.change :: []) = 1 :=
  audio_handle_revoked_exactly_once [AudioEv.resolve 0 7] [] 7 (by decide) (by decide)
